import Mathlib

/-!
Shallow embedding of the folco-core repository (Rust) in Lean 4.

The embedding follows the source files:
  * `src/convert.rs`  — structural conversion between the `icon-sys` and the
    `folco-renderer` icon representations;
  * `src/sys/windows.rs`, `src/sys/linux.rs` — per-platform content-bounds
    lookups;
  * `src/cache.rs`    — the on-disk icon cache (`IconCache`);
  * `src/context.rs`  — the orchestration layer (`CustomizationContext`),
    both the synchronous batch operations and the asynchronous, progress
    reporting variants;
  * `src/error.rs`, `src/progress.rs` — the error and progress-event types.

Modelling conventions:
  * Rust machine integers (`u32`, `usize`) are modelled as `Nat`; none of the
    modelled code paths can overflow (they only carry pixel dimensions,
    indices and counters derived from list lengths).
  * `f32` scale factors are modelled as `ℚ`; the core never computes with
    them, it only stores the literal `1.0`.
  * Rust panics (`expect`, `unimplemented!`) are modelled by the
    `PanicOr.aborts` constructor, kept distinct from catchable `Except`
    errors.
  * Filesystem state is modelled explicitly by a `World` structure carrying
    the file map together with oracles for the behaviour of the external
    collaborators (icon provider, I/O faults); every filesystem operation is
    state passing: it returns the new `World` next to its result.
  * The async operations' channel sends are modelled as a list of emitted
    events (the claim-level assumption that every send is delivered).
-/

/-! ## Pixel and image data (the parts of the `image` crate the core uses) -/

/-- An RGBA pixel buffer (`image::RgbaImage`): dimensions plus raw bytes. -/
structure RgbaImage where
  width : Nat
  height : Nat
  pixels : List Nat
deriving DecidableEq, Repr

/-- An `image::DynamicImage`: either already an RGBA8 buffer or some other
pixel format carrying its own dimensions and payload. -/
inductive DynamicImage where
  | imageRgba8 (img : RgbaImage) : DynamicImage
  | otherFormat (width height : Nat) (payload : List Nat) : DynamicImage
deriving DecidableEq, Repr

/-- The `DynamicImage::to_rgba8` conversion: pixel format is normalised, the
dimensions are preserved. -/
def DynamicImage.to_rgba8 : DynamicImage → RgbaImage
  | .imageRgba8 img => img
  | .otherFormat w h payload => { width := w, height := h, pixels := payload }

/-- The intrinsic width of a `DynamicImage` (`DynamicImage::width`). -/
def DynamicImage.width : DynamicImage → Nat
  | .imageRgba8 img => img.width
  | .otherFormat w _ _ => w

/-- The intrinsic height of a `DynamicImage` (`DynamicImage::height`). -/
def DynamicImage.height : DynamicImage → Nat
  | .imageRgba8 img => img.height
  | .otherFormat _ h _ => h

/-- A pixel rectangle (`folco_renderer::RectPx`). -/
structure RectPx where
  x : Nat
  y : Nat
  width : Nat
  height : Nat
deriving DecidableEq, Repr

/-- An icon image in the `icon-sys` ("system") representation
(`icon_sys::IconImage`): an opaquely decoded pixel image. -/
structure SysIconImage where
  data : DynamicImage
deriving DecidableEq, Repr

/-- An icon set in the system representation (`icon_sys::IconSet`). -/
structure SysIconSet where
  images : List SysIconImage
deriving DecidableEq, Repr

/-- An icon image in the `folco-renderer` ("render") representation
(`folco_renderer::IconImage`): pixel buffer, scale factor, content bounds. -/
structure RendererIconImage where
  data : RgbaImage
  scale : ℚ
  content_bounds : RectPx
deriving DecidableEq, Repr

/-- The `folco_renderer::IconImage::new` constructor. -/
def RendererIconImage.new (data : RgbaImage) (scale : ℚ) (content_bounds : RectPx) :
    RendererIconImage :=
  { data := data, scale := scale, content_bounds := content_bounds }

/-- An icon set in the render representation (`folco_renderer::IconSet`). -/
structure RendererIconSet where
  images : List RendererIconImage
deriving DecidableEq, Repr

/-- The `folco_renderer::IconSet::from_images` constructor. -/
def RendererIconSet.from_images (images : List RendererIconImage) : RendererIconSet :=
  { images := images }

/-! ## Panics

A Rust computation that may panic is embedded with its panic made explicit:
`aborts msg` is a runtime abort (an uncatchable `panic!`/`unimplemented!`),
`returns a` a normal return.  This is deliberately a different type from
`Except`, which models Rust's catchable `Result` errors. -/

/-- Outcome of a computation that may panic: a runtime abort with a message,
or a normal return. -/
inductive PanicOr (α : Type) where
  | aborts (msg : String) : PanicOr α
  | returns (a : α) : PanicOr α
deriving DecidableEq, Repr

/-- Whether a possibly-panicking computation returned normally. -/
def PanicOr.ok {α : Type} : PanicOr α → Bool
  | .aborts _ => false
  | .returns _ => true

/-! ## Per-platform content-bounds lookups (`src/sys/windows.rs`, `src/sys/linux.rs`) -/

/-- The valid Windows icon sizes (`icon_sys::icon::sys::windows::WindowsIconSize`,
an external enum; its documented dimensions are 16, 20, 24, 32, 40, 48, 64, 256). -/
inductive WindowsIconSize where
  | px16 | px20 | px24 | px32 | px40 | px48 | px64 | px256
deriving DecidableEq, Repr

/-- The `WindowsIconSize::from_dimension` lookup (external `icon-sys` crate;
modelled from its documented contract: defined exactly on the eight valid
Windows icon dimensions). -/
def WindowsIconSize.from_dimension (d : Nat) : Option WindowsIconSize :=
  if d = 16 then some .px16
  else if d = 20 then some .px20
  else if d = 24 then some .px24
  else if d = 32 then some .px32
  else if d = 40 then some .px40
  else if d = 48 then some .px48
  else if d = 64 then some .px64
  else if d = 256 then some .px256
  else none

/-- The Windows content-bounds lookup (`src/sys/windows.rs`,
`get_folder_icon_content_bounds`).  The source calls
`WindowsIconSize::from_dimension(dimension).expect("Invalid Windows icon dimension")`,
so an invalid dimension is a runtime panic, modelled as `aborts`. -/
def windows_get_folder_icon_content_bounds (dimension _height : Nat) : PanicOr RectPx :=
  match WindowsIconSize.from_dimension dimension with
  | none => .aborts "Invalid Windows icon dimension"
  | some .px16 => .returns ⟨0, 4, 16, 9⟩
  | some .px20 => .returns ⟨1, 6, 18, 10⟩
  | some .px24 => .returns ⟨1, 6, 22, 13⟩
  | some .px32 => .returns ⟨2, 8, 28, 17⟩
  | some .px40 => .returns ⟨2, 10, 38, 22⟩
  | some .px48 => .returns ⟨3, 11, 42, 27⟩
  | some .px64 => .returns ⟨4, 16, 56, 36⟩
  | some .px256 => .returns ⟨16, 62, 224, 144⟩

/-- The Linux content-bounds lookup (`src/sys/linux.rs`): the body is a bare
`unimplemented!(...)`, i.e. it aborts for every `(width, height)`. -/
def linux_get_folder_icon_content_bounds (width height : Nat) : PanicOr RectPx :=
  .aborts ("Linux folder icon content bounds not yet implemented for "
    ++ toString width ++ "x" ++ toString height)

/-- The macOS content-bounds lookup (`src/sys/macos.rs`): likewise a bare
`unimplemented!(...)`. -/
def macos_get_folder_icon_content_bounds (width height : Nat) : PanicOr RectPx :=
  .aborts ("macOS folder icon content bounds not yet implemented for "
    ++ toString width ++ "x" ++ toString height)

/-! ## The conversion layer (`src/convert.rs`)

`convert_icon_set` is parametrised by the platform bounds lookup that
`src/sys/mod.rs` selects with `cfg(target_os = ...)`; the per-platform
instances are obtained by applying it to the lookups above. -/

/-- The per-image body of `convert_icon_set`'s `map` closure, sequenced over
the image list; a panic in the bounds lookup aborts the whole conversion at
that image, as a Rust panic inside `map` would. -/
def convert_images (bounds : Nat → Nat → PanicOr RectPx) :
    List SysIconImage → PanicOr (List RendererIconImage)
  | [] => .returns []
  | sys_image :: rest =>
    let rgba := sys_image.data.to_rgba8
    match bounds rgba.width rgba.height with
    | .aborts msg => .aborts msg
    | .returns content_bounds =>
      match convert_images bounds rest with
      | .aborts msg => .aborts msg
      | .returns converted => .returns (RendererIconImage.new rgba 1 content_bounds :: converted)

/-- `convert_icon_set` (`src/convert.rs`): converts a system icon set to the
render representation.  For each image it normalises the pixel format
(`to_rgba8`), looks up the platform content bounds for the image's
dimensions, and builds a renderer image with scale `1.0`. -/
def convert_icon_set (bounds : Nat → Nat → PanicOr RectPx) (sys_icon_set : SysIconSet) :
    PanicOr RendererIconSet :=
  match convert_images bounds sys_icon_set.images with
  | .aborts msg => .aborts msg
  | .returns images => .returns (RendererIconSet.from_images images)

/-- `convert_icon_set` as selected on a Windows target
(`src/sys/mod.rs` re-exports `windows::get_folder_icon_content_bounds`). -/
def convert_icon_set_windows (s : SysIconSet) : PanicOr RendererIconSet :=
  convert_icon_set windows_get_folder_icon_content_bounds s

/-- `convert_icon_set_to_sys` (`src/convert.rs`): converts a render icon set
back to the system representation, keeping only the pixel buffer wrapped as
`DynamicImage::ImageRgba8`. -/
def convert_icon_set_to_sys (renderer_icon_set : RendererIconSet) : SysIconSet :=
  { images := renderer_icon_set.images.map (fun renderer_image =>
      { data := DynamicImage.imageRgba8 renderer_image.data }) }

/-! ## Errors (`src/error.rs`)

The `folco_core::Error` enum; external error payloads
(`std::io::Error`, `image::ImageError`, `icon_sys::Error`, ...) are carried
as their display strings. -/

/-- The `folco_core::Error` enum (`src/error.rs`). -/
inductive Error where
  | appDataDir (msg : String)
  | iconSys (msg : String)
  | cacheErr (msg : String)
  | ioErr (msg : String)
  | folderCustomization (path : String) (msg : String)
  | folderReset (path : String) (msg : String)
  | imageErr (msg : String)
  | notInitialized (msg : String)
  | serialization (msg : String)
  | folderSettings (msg : String)
  | renderErr (msg : String)
deriving DecidableEq, Repr

/-! ## Progress events (`src/progress.rs`)

Paths (`PathBuf`) are modelled as strings. -/

/-- The `Progress` event enum (`src/progress.rs`). -/
inductive Progress where
  | Started (total : Nat)
  | Rendering
  | RenderFailed (error : String)
  | Processing (current : Nat) (path : String)
  | FolderComplete (index : Nat) (path : String)
  | FolderFailed (index : Nat) (path : String) (error : String)
  | Completed (succeeded : Nat) (failed : Nat)
deriving DecidableEq, Repr

/-! ## The orchestration context (`src/context.rs`)

The renderer handle (`folco_renderer::IconCustomizer`) and the per-target
apply capability (`icon_sys`'s `PlatformFolderSettingsProvider`) are external
collaborators; they are modelled as oracles: the customizer carries an
arbitrary rendering function of its base icons and currently applied
profile, and the provider carries arbitrary per-target outcome functions.
To state "profile application / render / conversion happen exactly once per
call", each operation of the context additionally records the external calls
it makes, in order, as a list of `ExtCall` events. -/

/-- An opaque customization profile (`folco_renderer::CustomizationProfile`);
the core forwards it without inspection. -/
structure CustomizationProfile where
  tag : Nat
deriving DecidableEq, Repr

/-- The external renderer handle (`folco_renderer::IconCustomizer`): holds the
base icon set and the currently applied profile; `render_fn` is the oracle
for its externally-implemented `render_all`. -/
structure IconCustomizer where
  base_icons : RendererIconSet
  applied : Option CustomizationProfile
  render_fn : RendererIconSet → Option CustomizationProfile → RendererIconSet

/-- `IconCustomizer::apply_profile`: mutates the handle's state in place. -/
def IconCustomizer.apply_profile (c : IconCustomizer) (profile : CustomizationProfile) :
    IconCustomizer :=
  { c with applied := some profile }

/-- `IconCustomizer::render_all`: produces the final pixel output for the
currently applied profile (externally implemented; here the oracle). -/
def IconCustomizer.render_all (c : IconCustomizer) : RendererIconSet :=
  c.render_fn c.base_icons c.applied

/-- The external per-target apply capability
(`icon_sys::folder_settings::PlatformFolderSettingsProvider`): oracles for
the outcome of `set_icon_for_folder` and `reset_icon_for_folder` per target
(errors as display strings). -/
structure PlatformFolderSettingsProvider where
  set_icon_result : String → SysIconSet → Except String Unit
  reset_icon_result : String → Except String Unit

/-- One external call made by a context operation. -/
inductive ExtCall where
  | applyProfileCall
  | renderCall
  | convertCall
  | setIconCall (folder : String)
  | resetIconCall (folder : String)
deriving DecidableEq, Repr

/-- The customization context (`CustomizationContext`, `src/context.rs`):
customizer handle plus folder-settings provider.  (The cache member is
modelled separately in the cache section; no claimed context operation uses
both at once.) -/
structure CustomizationContext where
  customizer : IconCustomizer
  folder_provider : PlatformFolderSettingsProvider

/-- The per-target body of `customize_folders`' `map` closure: apply the
system icon set to one folder, wrapping a failure as
`Error::FolderCustomization(folder, cause)`. -/
def set_icon_outcome (prov : PlatformFolderSettingsProvider) (sys_icons : SysIconSet)
    (folder : String) : Except Error Unit :=
  match prov.set_icon_result folder sys_icons with
  | .ok _ => .ok ()
  | .error e => .error (Error.folderCustomization folder e)

/-- The per-target body of `reset_folders`' `map` closure, wrapping a failure
as `Error::FolderReset(folder, cause)`. -/
def reset_icon_outcome (prov : PlatformFolderSettingsProvider) (folder : String) :
    Except Error Unit :=
  match prov.reset_icon_result folder with
  | .ok _ => .ok ()
  | .error e => .error (Error.folderReset folder e)

/-- The iteration of `customize_folders` over the target list: one
`set_icon_for_folder` call and one recorded result per folder, in input
order; a failure is captured in that folder's result and iteration
continues. -/
def apply_icons_loop (prov : PlatformFolderSettingsProvider) (sys_icons : SysIconSet) :
    List String → List (Except Error Unit) × List ExtCall
  | [] => ([], [])
  | folder :: rest =>
    let r := set_icon_outcome prov sys_icons folder
    let (results, calls) := apply_icons_loop prov sys_icons rest
    (r :: results, ExtCall.setIconCall folder :: calls)

/-- The iteration of `reset_folders` over the target list. -/
def reset_icons_loop (prov : PlatformFolderSettingsProvider) :
    List String → List (Except Error Unit) × List ExtCall
  | [] => ([], [])
  | folder :: rest =>
    let r := reset_icon_outcome prov folder
    let (results, calls) := reset_icons_loop prov rest
    (r :: results, ExtCall.resetIconCall folder :: calls)

/-- `CustomizationContext::customize_folders` (`src/context.rs`): applies the
profile, renders, converts to system format — each as one straight-line call
before the loop — then applies the converted set to each folder in input
order, collecting one result per folder.  Returns the mutated context, the
trace of external calls made, and the per-folder results. -/
def CustomizationContext.customize_folders (ctx : CustomizationContext)
    (folders : List String) (profile : CustomizationProfile) :
    CustomizationContext × List ExtCall × List (Except Error Unit) :=
  let ctx := { ctx with customizer := ctx.customizer.apply_profile profile }
  let rendered := ctx.customizer.render_all
  let sys_icons := convert_icon_set_to_sys rendered
  let (results, applyCalls) := apply_icons_loop ctx.folder_provider sys_icons folders
  (ctx,
   ExtCall.applyProfileCall :: ExtCall.renderCall :: ExtCall.convertCall :: applyCalls,
   results)

/-- `CustomizationContext::reset_folders` (`src/context.rs`): resets each
folder in input order, collecting one result per folder; no profile
application, render or conversion step. -/
def CustomizationContext.reset_folders (ctx : CustomizationContext)
    (folders : List String) : List (Except Error Unit) × List ExtCall :=
  reset_icons_loop ctx.folder_provider folders

/-- The `.into_iter().next().unwrap_or(Ok(()))` combinator shared by
`customize_folder` and `reset_folder`: the first result of the batch call,
or `Ok(())` when the batch returned no results. -/
def first_result_or_ok (results : List (Except Error Unit)) : Except Error Unit :=
  results.headD (Except.ok ())

/-- `CustomizationContext::customize_folder`: single-target convenience call,
delegating to `customize_folders` on the one-element slice. -/
def CustomizationContext.customize_folder (ctx : CustomizationContext)
    (folder : String) (profile : CustomizationProfile) :
    CustomizationContext × List ExtCall × Except Error Unit :=
  let (ctx, calls, results) := ctx.customize_folders [folder] profile
  (ctx, calls, first_result_or_ok results)

/-- `CustomizationContext::reset_folder`: single-target convenience call,
delegating to `reset_folders` on the one-element slice. -/
def CustomizationContext.reset_folder (ctx : CustomizationContext)
    (folder : String) : Except Error Unit :=
  first_result_or_ok (ctx.reset_folders [folder]).1

/-! ## The asynchronous variants (`src/context.rs`)

Each is modelled as the list of progress events it sends (the claims assume
every channel send is delivered; in the source a failed `send` is dropped
with `let _ = ...`).  The per-folder loop is explicit recursion carrying the
`succeeded`/`failed` counters and the events emitted so far, exactly
mirroring the source's `for` loop. -/

/-- The body of `customize_folders_async`'s `for` loop over
`folders.iter().enumerate()`. -/
def customize_async_loop (prov : PlatformFolderSettingsProvider) (sys_icons : SysIconSet) :
    List (Nat × String) → Nat → Nat → List Progress → Nat × Nat × List Progress
  | [], succeeded, failed, events => (succeeded, failed, events)
  | (index, path) :: rest, succeeded, failed, events =>
    let events := events ++ [Progress.Processing index path]
    match prov.set_icon_result path sys_icons with
    | .ok _ =>
      customize_async_loop prov sys_icons rest (succeeded + 1) failed
        (events ++ [Progress.FolderComplete index path])
    | .error e =>
      customize_async_loop prov sys_icons rest succeeded (failed + 1)
        (events ++ [Progress.FolderFailed index path e])

/-- The body of `reset_folders_async`'s `for` loop. -/
def reset_async_loop (prov : PlatformFolderSettingsProvider) :
    List (Nat × String) → Nat → Nat → List Progress → Nat × Nat × List Progress
  | [], succeeded, failed, events => (succeeded, failed, events)
  | (index, path) :: rest, succeeded, failed, events =>
    let events := events ++ [Progress.Processing index path]
    match prov.reset_icon_result path with
    | .ok _ =>
      reset_async_loop prov rest (succeeded + 1) failed
        (events ++ [Progress.FolderComplete index path])
    | .error e =>
      reset_async_loop prov rest succeeded (failed + 1)
        (events ++ [Progress.FolderFailed index path e])

/-- `CustomizationContext::customize_folders_async` (`src/context.rs`):
sends `Started{total}`, then `Rendering`, applies the profile, renders and
converts once, then runs the per-folder loop and finally sends
`Completed{succeeded, failed}`.  Returns the mutated context and the event
list sent. -/
def CustomizationContext.customize_folders_async (ctx : CustomizationContext)
    (folders : List String) (profile : CustomizationProfile) :
    CustomizationContext × List Progress :=
  let total := folders.length
  let events := [Progress.Started total]
  let events := events ++ [Progress.Rendering]
  let ctx := { ctx with customizer := ctx.customizer.apply_profile profile }
  let rendered := ctx.customizer.render_all
  let sys_icons := convert_icon_set_to_sys rendered
  let (succeeded, failed, events) :=
    customize_async_loop ctx.folder_provider sys_icons folders.enum 0 0 events
  (ctx, events ++ [Progress.Completed succeeded failed])

/-- `CustomizationContext::reset_folders_async` (`src/context.rs`): sends
`Started{total}`, runs the per-folder reset loop, then sends
`Completed{succeeded, failed}`. -/
def CustomizationContext.reset_folders_async (ctx : CustomizationContext)
    (folders : List String) : List Progress :=
  let total := folders.length
  let events := [Progress.Started total]
  let (succeeded, failed, events) :=
    reset_async_loop ctx.folder_provider folders.enum 0 0 events
  events ++ [Progress.Completed succeeded failed]

/-! ## The icon cache (`src/cache.rs`)

The filesystem and the external collaborators of the cache are modelled by a
`World`: an association list of files keyed by path string, a directory
existence flag for the cache directory, and oracles for I/O faults and for
the external icon provider.  Every cache operation is state passing — it
returns the world as left at the point it returned, so that files written
before a failure persist, as they do on a real disk. -/

/-- `CachedIconInfo` (`src/cache.rs`): one manifest entry per cached image. -/
structure CachedIconInfo where
  size : Nat
  index : Nat
  path : String
deriving DecidableEq, Repr

/-- `CacheManifest` (`src/cache.rs`). -/
structure CacheManifest where
  version : Nat
  icon_count : Nat
  icons : List CachedIconInfo
deriving DecidableEq, Repr

deriving instance DecidableEq for Except

/-- The parsed or unparseable content of a file on disk: a manifest JSON file
(`Except.error` = text that fails `serde_json` parsing) or a PNG image file
(`Except.error` = bytes on which `image::open` fails to decode). -/
inductive FileData where
  | manifestJson (parse : Except String CacheManifest)
  | pngFile (decode : Except String DynamicImage)
deriving DecidableEq, Repr

/-- `CacheConfig` (`src/cache.rs`): cache directory and the force-refresh
flag. -/
structure CacheConfig where
  cache_dir : String
  force_refresh : Bool
deriving DecidableEq, Repr

/-- The filesystem and external-collaborator state a cache operates in. -/
structure World where
  /-- Whether the cache directory currently exists. -/
  dir_exists : Bool
  /-- The files on disk: newest binding of a path shadows older ones. -/
  files : List (String × FileData)
  /-- Fault oracle for `fs::create_dir_all` (`some msg` = the call fails). -/
  create_dir_err : Option String
  /-- Fault oracle for `fs::remove_dir_all`. -/
  remove_dir_err : Option String
  /-- The external provider's `dump_default_folder_icon()` outcome. -/
  provider_result : Except String SysIconSet
  /-- Fault oracle for `RgbaImage::save` at a given path. -/
  save_err : String → Option String
  /-- Fault oracle for `serde_json::to_string_pretty` of the manifest. -/
  ser_err : Option String
  /-- Fault oracle for `fs::write` of the manifest file. -/
  write_err : Option String

/-- Look a file up on disk (first, i.e. newest, binding of the path). -/
def lookupFile (w : World) (p : String) : Option FileData :=
  (w.files.find? (fun kv => kv.1 = p)).map (fun kv => kv.2)

/-- `Path::exists` for a file path. -/
def pathExists (w : World) (p : String) : Bool :=
  (lookupFile w p).isSome

/-- Write (create or overwrite) a file on disk. -/
def writeFile (w : World) (p : String) (d : FileData) : World :=
  { w with files := (p, d) :: w.files }

/-- `image::open` on an existing file: decodes the file, or fails with the
decode error wrapped as `Error::Image`; a file that is not a PNG at all also
fails to decode. -/
def openImage (w : World) (p : String) : Except Error DynamicImage :=
  match lookupFile w p with
  | none => .error (Error.ioErr ("no such file: " ++ p))
  | some (.pngFile (.ok img)) => .ok img
  | some (.pngFile (.error e)) => .error (Error.imageErr e)
  | some (.manifestJson _) => .error (Error.imageErr ("not an image: " ++ p))

/-- Whether a path lies inside the given directory (has `dir ++ "/"` as a
prefix); `fs::remove_dir_all` removes exactly these files. -/
def path_in_dir (dir p : String) : Bool :=
  decide (p.data.take (dir ++ "/").data.length = (dir ++ "/").data)

/-- `IconCache::icon_path` (`src/cache.rs`):
`cache_dir.join(format!("folder_icon_{size}_{index}.png"))`. -/
def icon_path (cache_dir : String) (size index : Nat) : String :=
  cache_dir ++ "/" ++ ("folder_icon_" ++ toString size ++ "_" ++ toString index ++ ".png")

/-- `IconCache::manifest_path` (`src/cache.rs`): `cache_dir.join("manifest.json")`. -/
def manifest_path (cache_dir : String) : String :=
  cache_dir ++ "/" ++ "manifest.json"

/-- `IconCache::is_cached` (`src/cache.rs`): false immediately when
`force_refresh` is set, otherwise whether the manifest file exists. -/
def is_cached (cfg : CacheConfig) (w : World) : Bool :=
  if cfg.force_refresh then false
  else pathExists w (manifest_path cfg.cache_dir)

/-- `IconCache::ensure_cache_dir` (`src/cache.rs`): creates the cache
directory when absent (`fs::create_dir_all`, which may fail). -/
def ensure_cache_dir (w : World) : World × Except Error Unit :=
  if !w.dir_exists then
    match w.create_dir_err with
    | some e => (w, .error (Error.ioErr e))
    | none => ({ w with dir_exists := true }, .ok ())
  else (w, .ok ())

/-- The `for (index, image) in icon_set.images.iter().enumerate()` loop of
`fetch_and_cache`: converts each image to RGBA, saves it at its
deterministic `(size, index)` path, and accumulates its manifest entry; a
failed save returns that error at once, keeping the files already written. -/
def cache_images_loop (cd : String) (w : World) :
    List (Nat × SysIconImage) → World × Except Error (List CachedIconInfo)
  | [] => (w, .ok [])
  | (index, image) :: rest =>
    let rgba := image.data.to_rgba8
    let size := rgba.width
    let path := icon_path cd size index
    match w.save_err path with
    | some e => (w, .error (Error.imageErr e))
    | none =>
      let w := writeFile w path (.pngFile (.ok (DynamicImage.imageRgba8 rgba)))
      match cache_images_loop cd w rest with
      | (w, .error e) => (w, .error e)
      | (w, .ok infos) =>
        (w, .ok ({ size := size, index := index, path := path } :: infos))

/-- `IconCache::fetch_and_cache` (`src/cache.rs`): ensures the cache
directory, asks the provider for the default icon set, saves every image,
then serialises and writes the manifest (whose `icon_count` is fixed to the
image count before the loop); any failure returns at once, so the manifest
is written last. -/
def fetch_and_cache (cd : String) (w : World) : World × Except Error SysIconSet :=
  match ensure_cache_dir w with
  | (w, .error e) => (w, .error e)
  | (w, .ok _) =>
    match w.provider_result with
    | .error e => (w, .error (Error.iconSys e))
    | .ok icon_set =>
      match cache_images_loop cd w icon_set.images.enum with
      | (w, .error e) => (w, .error e)
      | (w, .ok infos) =>
        let manifest : CacheManifest :=
          { version := 1, icon_count := icon_set.images.length, icons := infos }
        match w.ser_err with
        | some e => (w, .error (Error.serialization e))
        | none =>
          match w.write_err with
          | some e => (w, .error (Error.ioErr e))
          | none =>
            (writeFile w (manifest_path cd) (.manifestJson (.ok manifest)), .ok icon_set)

/-- The `for info in &manifest.icons` loop of `load_from_cache`: a listed
path that no longer exists triggers one full refetch (`fetch_and_cache`);
otherwise the file is opened (a decode failure propagates) and its image
accumulated in manifest order. -/
def load_images_loop (cd : String) (w : World) :
    List CachedIconInfo → List SysIconImage → World × Except Error SysIconSet
  | [], images => (w, .ok { images := images })
  | info :: rest, images =>
    if !pathExists w info.path then
      fetch_and_cache cd w
    else
      match openImage w info.path with
      | .error e => (w, .error e)
      | .ok img => load_images_loop cd w rest (images ++ [{ data := img }])

/-- `IconCache::load_from_cache` (`src/cache.rs`): reads and parses the
manifest file, then decodes every referenced file in manifest order; a
missing referenced file falls back to `fetch_and_cache`. -/
def load_from_cache (cfg : CacheConfig) (w : World) : World × Except Error SysIconSet :=
  match lookupFile w (manifest_path cfg.cache_dir) with
  | none => (w, .error (Error.ioErr ("no such file: " ++ manifest_path cfg.cache_dir)))
  | some (.pngFile _) => (w, .error (Error.serialization "invalid manifest JSON"))
  | some (.manifestJson (.error e)) => (w, .error (Error.serialization e))
  | some (.manifestJson (.ok manifest)) =>
    load_images_loop cfg.cache_dir w manifest.icons []

/-- `IconCache::get_sys_icon_set` (`src/cache.rs`): load from the cache when
`is_cached()`, otherwise fetch and populate. -/
def get_sys_icon_set (cfg : CacheConfig) (w : World) : World × Except Error SysIconSet :=
  if is_cached cfg w then load_from_cache cfg w
  else fetch_and_cache cfg.cache_dir w

/-- `IconCache::clear` (`src/cache.rs`): recursively removes the cache
directory when it exists (`fs::remove_dir_all`, which may fail); a no-op
when the directory is already absent. -/
def cache_clear (cfg : CacheConfig) (w : World) : World × Except Error Unit :=
  if w.dir_exists then
    match w.remove_dir_err with
    | some e => (w, .error (Error.ioErr e))
    | none =>
      let remaining := w.files.filter (fun kv => !path_in_dir cfg.cache_dir kv.1)
      ({ w with dir_exists := false, files := remaining }, .ok ())
  else (w, .ok ())

/-! ## Helper lemmas -/

/-- The customize loop returns one result per folder, in input order, each
the outcome of that folder's `set_icon_for_folder` call, and one recorded
`setIconCall` per folder. -/
theorem apply_icons_loop_spec (prov : PlatformFolderSettingsProvider)
    (sys_icons : SysIconSet) (folders : List String) :
    apply_icons_loop prov sys_icons folders =
      (folders.map (set_icon_outcome prov sys_icons), folders.map ExtCall.setIconCall) := by
  induction folders with
  | nil => rfl
  | cons f rest ih => simp [apply_icons_loop, ih]

/-- The reset loop returns one result per folder, in input order. -/
theorem reset_icons_loop_spec (prov : PlatformFolderSettingsProvider)
    (folders : List String) :
    reset_icons_loop prov folders =
      (folders.map (reset_icon_outcome prov), folders.map ExtCall.resetIconCall) := by
  induction folders with
  | nil => rfl
  | cons f rest ih => simp [reset_icons_loop, ih]

/-- A list of `setIconCall` events contains no other kind of event. -/
theorem count_in_set_icon_calls (c : ExtCall) (folders : List String)
    (h : ∀ f, c ≠ ExtCall.setIconCall f) :
    (folders.map ExtCall.setIconCall).count c = 0 := by
  rw [List.count_eq_zero]
  intro hc
  rcases List.mem_map.mp hc with ⟨f, _, hf⟩
  exact h f hf.symm

/-- C1: for every list of target folders and every profile,
`customize_folders` returns one result per target, in input order, the
result at position k being the outcome of applying the converted icon set to
target k (so a failure is recorded in its own slot and no later target is
skipped: a `set_icon_for_folder` call is recorded for every target); and the
profile application, the render and the conversion to system format are each
performed exactly once per call, regardless of the number of targets. -/
theorem customize_folders_fail_soft_once (ctx : CustomizationContext)
    (folders : List String) (profile : CustomizationProfile) :
    (ctx.customize_folders folders profile).2.2.length = folders.length
    ∧ (ctx.customize_folders folders profile).2.2 =
        folders.map (set_icon_outcome ctx.folder_provider
          (convert_icon_set_to_sys ((ctx.customizer.apply_profile profile).render_all)))
    ∧ (ctx.customize_folders folders profile).2.1 =
        ExtCall.applyProfileCall :: ExtCall.renderCall :: ExtCall.convertCall ::
          folders.map ExtCall.setIconCall
    ∧ (ctx.customize_folders folders profile).2.1.count ExtCall.applyProfileCall = 1
    ∧ (ctx.customize_folders folders profile).2.1.count ExtCall.renderCall = 1
    ∧ (ctx.customize_folders folders profile).2.1.count ExtCall.convertCall = 1
    ∧ ∀ f ∈ folders, ExtCall.setIconCall f ∈ (ctx.customize_folders folders profile).2.1 := by
  have hloop := apply_icons_loop_spec ctx.folder_provider
    (convert_icon_set_to_sys ((ctx.customizer.apply_profile profile).render_all)) folders
  refine ⟨?_, ?_, ?_, ?_, ?_, ?_, ?_⟩
  · simp [CustomizationContext.customize_folders, hloop]
  · simp [CustomizationContext.customize_folders, hloop]
  · simp [CustomizationContext.customize_folders, hloop]
  · simp [CustomizationContext.customize_folders, hloop, List.count_cons,
      count_in_set_icon_calls ExtCall.applyProfileCall folders (fun _ => by simp)]
  · simp [CustomizationContext.customize_folders, hloop, List.count_cons,
      count_in_set_icon_calls ExtCall.renderCall folders (fun _ => by simp)]
  · simp [CustomizationContext.customize_folders, hloop, List.count_cons,
      count_in_set_icon_calls ExtCall.convertCall folders (fun _ => by simp)]
  · intro f hf
    have htr : (ctx.customize_folders folders profile).2.1 =
        ExtCall.applyProfileCall :: ExtCall.renderCall :: ExtCall.convertCall ::
          folders.map ExtCall.setIconCall := by
      simp [CustomizationContext.customize_folders, hloop]
    rw [htr]
    exact List.mem_cons_of_mem _ (List.mem_cons_of_mem _ (List.mem_cons_of_mem _
      (List.mem_map_of_mem _ hf)))

/-- C10: each single-target convenience call returns exactly the sole result
of the corresponding batch call on the one-element list; and the
`.next().unwrap_or(Ok(()))` combinator both use maps an empty batch result
list to `Ok(())` — a silent success. -/
theorem single_folder_convenience (ctx : CustomizationContext) (f : String)
    (profile : CustomizationProfile) :
    (∃ r, (ctx.customize_folders [f] profile).2.2 = [r]
        ∧ (ctx.customize_folder f profile).2.2 = r)
    ∧ (∃ r, (ctx.reset_folders [f]).1 = [r] ∧ ctx.reset_folder f = r)
    ∧ first_result_or_ok [] = Except.ok () := by
  refine ⟨⟨set_icon_outcome ctx.folder_provider
      (convert_icon_set_to_sys ((ctx.customizer.apply_profile profile).render_all)) f, ?_, ?_⟩,
    ⟨reset_icon_outcome ctx.folder_provider f, ?_, ?_⟩, rfl⟩
  · simp [CustomizationContext.customize_folders, apply_icons_loop_spec]
  · simp [CustomizationContext.customize_folder, CustomizationContext.customize_folders,
      apply_icons_loop_spec, first_result_or_ok]
  · simp [CustomizationContext.reset_folders, reset_icons_loop_spec]
  · simp [CustomizationContext.reset_folder, CustomizationContext.reset_folders,
      reset_icons_loop_spec, first_result_or_ok]

/-- `to_rgba8` preserves the image width. -/
theorem to_rgba8_width (d : DynamicImage) : d.to_rgba8.width = d.width := by
  cases d <;> rfl

/-- `to_rgba8` preserves the image height. -/
theorem to_rgba8_height (d : DynamicImage) : d.to_rgba8.height = d.height := by
  cases d <;> rfl

/-- When every image's dimensions have defined content bounds, the per-image
conversion succeeds, preserves count and per-position dimensions, and sets
every scale to 1. -/
theorem convert_images_spec (bounds : Nat → Nat → PanicOr RectPx) :
    ∀ l : List SysIconImage,
    (∀ img ∈ l, (bounds img.data.to_rgba8.width img.data.to_rgba8.height).ok = true) →
    ∃ rl, convert_images bounds l = PanicOr.returns rl
      ∧ rl.length = l.length
      ∧ (∀ k : Nat, (rl.get? k).map (fun ri => (ri.data.width, ri.data.height))
          = (l.get? k).map (fun si => (si.data.width, si.data.height)))
      ∧ ∀ ri ∈ rl, ri.scale = 1 := by
  intro l
  induction l with
  | nil =>
    intro _
    exact ⟨[], rfl, rfl, fun k => rfl, fun ri h => absurd h (List.not_mem_nil ri)⟩
  | cons img rest ih =>
    intro h
    have himg := h img (List.mem_cons_self img rest)
    obtain ⟨cb, hcb⟩ : ∃ cb,
        bounds img.data.to_rgba8.width img.data.to_rgba8.height = PanicOr.returns cb := by
      cases hb : bounds img.data.to_rgba8.width img.data.to_rgba8.height with
      | aborts m => rw [hb] at himg; exact absurd himg (by simp [PanicOr.ok])
      | returns cb => exact ⟨cb, rfl⟩
    obtain ⟨rl, hrl, hlen, hdims, hscale⟩ :=
      ih (fun i hi => h i (List.mem_cons_of_mem img hi))
    refine ⟨RendererIconImage.new img.data.to_rgba8 1 cb :: rl, ?_, ?_, ?_, ?_⟩
    · simp [convert_images, hcb, hrl]
    · simp [hlen]
    · intro k
      cases k with
      | zero => simp [RendererIconImage.new, to_rgba8_width, to_rgba8_height]
      | succ k => simpa using hdims k
    · intro ri hri
      rcases List.mem_cons.mp hri with h0 | h0
      · rw [h0]; rfl
      · exact hscale ri h0

/-- C5: for every valid system icon set S — one whose per-image
`(width, height)` combinations all have defined content bounds —
`convert_icon_set` succeeds and the composition
`convert_icon_set_to_sys (convert_icon_set S)` preserves the image count,
the image order and the per-image pixel width and height of S; and
`convert_icon_set` sets scale = 1.0 on every converted image. -/
theorem convert_round_trip (bounds : Nat → Nat → PanicOr RectPx) (S : SysIconSet)
    (hdef : ∀ img ∈ S.images,
      (bounds img.data.to_rgba8.width img.data.to_rgba8.height).ok = true) :
    ∃ R, convert_icon_set bounds S = PanicOr.returns R
      ∧ R.images.length = S.images.length
      ∧ (convert_icon_set_to_sys R).images.length = S.images.length
      ∧ (∀ k : Nat, ((convert_icon_set_to_sys R).images.get? k).map
            (fun i => (i.data.width, i.data.height))
          = (S.images.get? k).map (fun i => (i.data.width, i.data.height)))
      ∧ ∀ ri ∈ R.images, ri.scale = 1 := by
  obtain ⟨rl, hrl, hlen, hdims, hscale⟩ := convert_images_spec bounds S.images hdef
  refine ⟨RendererIconSet.from_images rl, ?_, hlen, ?_, ?_, hscale⟩
  · simp [convert_icon_set, hrl]
  · simp [convert_icon_set_to_sys, RendererIconSet.from_images, hlen]
  · intro k
    have := hdims k
    simp only [convert_icon_set_to_sys, RendererIconSet.from_images, List.get?_map]
    rw [← this]
    cases rl.get? k with
    | none => rfl
    | some ri => simp [DynamicImage.width, DynamicImage.height]

/-- C5 witness: a concrete one-image 32-by-32 system set is valid for the
Windows bounds lookup, and the round trip preserves its dimensions. -/
theorem convert_round_trip_witness :
    ∃ R, convert_icon_set windows_get_folder_icon_content_bounds
        { images := [{ data := (DynamicImage.imageRgba8
            { width := 32, height := 32, pixels := [0, 1, 2, 3] }) }] } = PanicOr.returns R
      ∧ R.images.length = 1
      ∧ (convert_icon_set_to_sys R).images.length = 1
      ∧ (∀ k : Nat, ((convert_icon_set_to_sys R).images.get? k).map
            (fun i => (i.data.width, i.data.height))
          = (([{ data := (DynamicImage.imageRgba8
              { width := 32, height := 32, pixels := [0, 1, 2, 3] }) }] :
                List SysIconImage).get? k).map (fun i => (i.data.width, i.data.height)))
      ∧ ∀ ri ∈ R.images, ri.scale = 1 :=
  convert_round_trip windows_get_folder_icon_content_bounds
    { images := [{ data := (DynamicImage.imageRgba8
        { width := 32, height := 32, pixels := [0, 1, 2, 3] }) }] }
    (by intro img h; simp at h; subst h; decide)

/-- If any image of the list has dimensions on which the bounds lookup
panics, the whole per-image conversion panics. -/
theorem convert_images_aborts_of_undefined (bounds : Nat → Nat → PanicOr RectPx) :
    ∀ (l : List SysIconImage) (img : SysIconImage), img ∈ l →
    (bounds img.data.to_rgba8.width img.data.to_rgba8.height).ok = false →
    ∃ msg, convert_images bounds l = PanicOr.aborts msg := by
  intro l
  induction l with
  | nil => intro img h; exact absurd h (List.not_mem_nil img)
  | cons hd rest ih =>
    intro img hmem hbad
    cases hb : bounds hd.data.to_rgba8.width hd.data.to_rgba8.height with
    | aborts m => exact ⟨m, by simp [convert_images, hb]⟩
    | returns cb =>
      rcases List.mem_cons.mp hmem with h0 | h0
      · subst h0; rw [hb] at hbad; exact absurd hbad (by simp [PanicOr.ok])
      · obtain ⟨m, hm⟩ := ih img h0 hbad
        exact ⟨m, by simp [convert_images, hb, hm]⟩

/-- C6 counterexample: the claim says an undefined `(width, height)`
combination is reported as an explicit, catchable error and never as a
runtime abort; but on a concrete 17-by-17 image the Windows conversion is a
runtime panic (`expect` on `from_dimension`), and the Linux lookup is a
panic (`unimplemented!`) even on a standard 16-by-16 size. -/
theorem content_bounds_panic_cex :
    convert_icon_set windows_get_folder_icon_content_bounds
      { images := [{ data := (DynamicImage.imageRgba8
          { width := 17, height := 17, pixels := [] }) }] }
      = PanicOr.aborts "Invalid Windows icon dimension"
    ∧ linux_get_folder_icon_content_bounds 16 16
      = PanicOr.aborts "Linux folder icon content bounds not yet implemented for 16x16" := by
  constructor
  · rfl
  · rfl

/-- C6 (amended): for every image whose `(width, height)` combination is
undefined in the platform content-bounds lookup, the conversion to render
format is a hard failure for the whole call — a runtime abort (panic), never
a silently-assumed default bounds value; on Windows the lookup panics
exactly on the dimensions `from_dimension` rejects, and on Linux it panics
on every combination. -/
theorem content_bounds_undefined_aborts :
    (∀ (bounds : Nat → Nat → PanicOr RectPx) (S : SysIconSet) (img : SysIconImage),
        img ∈ S.images →
        (bounds img.data.to_rgba8.width img.data.to_rgba8.height).ok = false →
        ∃ msg, convert_icon_set bounds S = PanicOr.aborts msg)
    ∧ (∀ d h : Nat, WindowsIconSize.from_dimension d = none →
        windows_get_folder_icon_content_bounds d h
          = PanicOr.aborts "Invalid Windows icon dimension")
    ∧ (∀ w h : Nat, ∃ msg, linux_get_folder_icon_content_bounds w h = PanicOr.aborts msg) := by
  refine ⟨?_, ?_, ?_⟩
  · intro bounds S img hmem hbad
    obtain ⟨m, hm⟩ := convert_images_aborts_of_undefined bounds S.images img hmem hbad
    exact ⟨m, by simp [convert_icon_set, hm]⟩
  · intro d h hd
    simp [windows_get_folder_icon_content_bounds, hd]
  · intro w h
    exact ⟨_, rfl⟩

/-- C6 witness: a concrete 21-by-21 image is rejected by `from_dimension`,
and converting a set containing it panics. -/
theorem content_bounds_undefined_aborts_witness :
    (∃ msg, convert_icon_set windows_get_folder_icon_content_bounds
        { images := [{ data := (DynamicImage.imageRgba8
            { width := 21, height := 21, pixels := [] }) }] }
        = PanicOr.aborts msg)
    ∧ windows_get_folder_icon_content_bounds 21 21
        = PanicOr.aborts "Invalid Windows icon dimension" :=
  ⟨content_bounds_undefined_aborts.1 windows_get_folder_icon_content_bounds
      { images := [{ data := (DynamicImage.imageRgba8
          { width := 21, height := 21, pixels := [] }) }] }
      { data := (DynamicImage.imageRgba8 { width := 21, height := 21, pixels := [] }) }
      (by simp) (by decide),
   content_bounds_undefined_aborts.2.1 21 21 (by decide)⟩

/-! ## Event-protocol lemmas for the async operations -/

/-- Whether `set_icon_for_folder` succeeds on a given target. -/
def set_ok (prov : PlatformFolderSettingsProvider) (sys_icons : SysIconSet)
    (path : String) : Bool :=
  match prov.set_icon_result path sys_icons with
  | .ok _ => true
  | .error _ => false

/-- Whether `reset_icon_for_folder` succeeds on a given target. -/
def reset_ok (prov : PlatformFolderSettingsProvider) (path : String) : Bool :=
  match prov.reset_icon_result path with
  | .ok _ => true
  | .error _ => false

/-- The two events the customize loop emits for target `i`: `Processing`
immediately followed by exactly one of `FolderComplete` or `FolderFailed`,
according to the outcome of that target's `set_icon_for_folder` call. -/
def customize_target_events (prov : PlatformFolderSettingsProvider)
    (sys_icons : SysIconSet) (i : Nat) (path : String) : List Progress :=
  match prov.set_icon_result path sys_icons with
  | .ok _ => [Progress.Processing i path, Progress.FolderComplete i path]
  | .error e => [Progress.Processing i path, Progress.FolderFailed i path e]

/-- The two events the reset loop emits for target `i`. -/
def reset_target_events (prov : PlatformFolderSettingsProvider)
    (i : Nat) (path : String) : List Progress :=
  match prov.reset_icon_result path with
  | .ok _ => [Progress.Processing i path, Progress.FolderComplete i path]
  | .error e => [Progress.Processing i path, Progress.FolderFailed i path e]

/-- Closed form of the customize loop: the counters count the `Ok` and `Err`
outcomes, and the events are the per-target blocks appended in order. -/
theorem customize_async_loop_spec (prov : PlatformFolderSettingsProvider)
    (sys_icons : SysIconSet) :
    ∀ (l : List (Nat × String)) (s f : Nat) (evs : List Progress),
    customize_async_loop prov sys_icons l s f evs =
      (s + (l.filter (fun p => set_ok prov sys_icons p.2)).length,
       f + (l.filter (fun p => !set_ok prov sys_icons p.2)).length,
       evs ++ l.bind (fun p => customize_target_events prov sys_icons p.1 p.2)) := by
  intro l
  induction l with
  | nil => intro s f evs; simp [customize_async_loop]
  | cons p rest ih =>
    intro s f evs
    obtain ⟨i, path⟩ := p
    cases hr : prov.set_icon_result path sys_icons with
    | ok u =>
      simp only [customize_async_loop, hr, ih, Prod.mk.injEq]
      refine ⟨?_, ?_, ?_⟩
      · simp [List.filter, set_ok, hr]; omega
      · simp [List.filter, set_ok, hr]
      · simp [customize_target_events, hr]
    | error e =>
      simp only [customize_async_loop, hr, ih, Prod.mk.injEq]
      refine ⟨?_, ?_, ?_⟩
      · simp [List.filter, set_ok, hr]
      · simp [List.filter, set_ok, hr]; omega
      · simp [customize_target_events, hr]

/-- Closed form of the reset loop. -/
theorem reset_async_loop_spec (prov : PlatformFolderSettingsProvider) :
    ∀ (l : List (Nat × String)) (s f : Nat) (evs : List Progress),
    reset_async_loop prov l s f evs =
      (s + (l.filter (fun p => reset_ok prov p.2)).length,
       f + (l.filter (fun p => !reset_ok prov p.2)).length,
       evs ++ l.bind (fun p => reset_target_events prov p.1 p.2)) := by
  intro l
  induction l with
  | nil => intro s f evs; simp [reset_async_loop]
  | cons p rest ih =>
    intro s f evs
    obtain ⟨i, path⟩ := p
    cases hr : prov.reset_icon_result path with
    | ok u =>
      simp only [reset_async_loop, hr, ih, Prod.mk.injEq]
      refine ⟨?_, ?_, ?_⟩
      · simp [List.filter, reset_ok, hr]; omega
      · simp [List.filter, reset_ok, hr]
      · simp [reset_target_events, hr]
    | error e =>
      simp only [reset_async_loop, hr, ih, Prod.mk.injEq]
      refine ⟨?_, ?_, ?_⟩
      · simp [List.filter, reset_ok, hr]
      · simp [List.filter, reset_ok, hr]; omega
      · simp [reset_target_events, hr]

/-- Splitting a list by a Boolean predicate splits its length. -/
theorem length_filter_add_length_filter_not {α : Type} (p : α → Bool) (l : List α) :
    (l.filter p).length + (l.filter (fun x => !p x)).length = l.length := by
  induction l with
  | nil => rfl
  | cons x rest ih =>
    cases hx : p x <;> simp [List.filter, hx] <;> omega

/-- Filtering the enumerated list by a predicate on the element alone gives
as many elements as filtering the plain list. -/
theorem enumFrom_filter_snd_length {α : Type} (q : α → Bool) :
    ∀ (l : List α) (n : Nat),
    ((l.enumFrom n).filter (fun p => q p.2)).length = (l.filter q).length := by
  intro l
  induction l with
  | nil => intro n; rfl
  | cons x rest ih =>
    intro n
    cases hx : q x <;> simp [List.enumFrom, List.filter, hx, ih]

/-- C3: assuming every channel send is delivered, the event sequence of
`customize_folders_async` is exactly `Started{total = N}`, then `Rendering`
(once, before any per-target event), then for each target `i = 0..N` in
input order the block `Processing{current = i, path}` immediately followed
by exactly one of `FolderComplete{index = i, path}` or
`FolderFailed{index = i, path, error}` for that same target, then the final
`Completed` event; and the event sequence of `reset_folders_async` is the
same without the `Rendering` event. -/
theorem async_event_sequence (ctx : CustomizationContext) (folders : List String)
    (profile : CustomizationProfile) :
    (ctx.customize_folders_async folders profile).2 =
      [Progress.Started folders.length, Progress.Rendering]
        ++ folders.enum.bind (fun p => customize_target_events ctx.folder_provider
            (convert_icon_set_to_sys ((ctx.customizer.apply_profile profile).render_all))
            p.1 p.2)
        ++ [Progress.Completed
            ((folders.enum.filter (fun p => set_ok ctx.folder_provider
              (convert_icon_set_to_sys ((ctx.customizer.apply_profile profile).render_all))
              p.2)).length)
            ((folders.enum.filter (fun p => !set_ok ctx.folder_provider
              (convert_icon_set_to_sys ((ctx.customizer.apply_profile profile).render_all))
              p.2)).length)]
    ∧ ctx.reset_folders_async folders =
      [Progress.Started folders.length]
        ++ folders.enum.bind (fun p => reset_target_events ctx.folder_provider p.1 p.2)
        ++ [Progress.Completed
            ((folders.enum.filter (fun p => reset_ok ctx.folder_provider p.2)).length)
            ((folders.enum.filter (fun p => !reset_ok ctx.folder_provider p.2)).length)] := by
  constructor
  · simp [CustomizationContext.customize_folders_async, customize_async_loop_spec,
      IconCustomizer.apply_profile, IconCustomizer.render_all]
  · simp [CustomizationContext.reset_folders_async, reset_async_loop_spec]

/-- C4: for both async batch operations the final event is
`Completed{succeeded, failed}` with `succeeded + failed = N` for every `N`
(including 0), where `succeeded` counts exactly the targets whose
apply/reset call returned `Ok` and `failed` exactly those that returned
`Err`. -/
theorem async_completed_invariant (ctx : CustomizationContext) (folders : List String)
    (profile : CustomizationProfile) :
    (∃ s f, ((ctx.customize_folders_async folders profile).2).getLast?
          = some (Progress.Completed s f)
        ∧ s = (folders.filter (fun path => set_ok ctx.folder_provider
            (convert_icon_set_to_sys ((ctx.customizer.apply_profile profile).render_all))
            path)).length
        ∧ f = (folders.filter (fun path => !set_ok ctx.folder_provider
            (convert_icon_set_to_sys ((ctx.customizer.apply_profile profile).render_all))
            path)).length
        ∧ s + f = folders.length)
    ∧ (∃ s f, (ctx.reset_folders_async folders).getLast? = some (Progress.Completed s f)
        ∧ s = (folders.filter (fun path => reset_ok ctx.folder_provider path)).length
        ∧ f = (folders.filter (fun path => !reset_ok ctx.folder_provider path)).length
        ∧ s + f = folders.length) := by
  constructor
  · refine ⟨(folders.enum.filter (fun p => set_ok ctx.folder_provider
        (convert_icon_set_to_sys ((ctx.customizer.apply_profile profile).render_all))
        p.2)).length,
      (folders.enum.filter (fun p => !set_ok ctx.folder_provider
        (convert_icon_set_to_sys ((ctx.customizer.apply_profile profile).render_all))
        p.2)).length, ?_, ?_, ?_, ?_⟩
    · simp only [CustomizationContext.customize_folders_async, customize_async_loop_spec,
        IconCustomizer.apply_profile, IconCustomizer.render_all, Nat.zero_add]
      exact List.getLast?_concat _
    · exact enumFrom_filter_snd_length _ folders 0
    · exact enumFrom_filter_snd_length
        (fun path => !set_ok ctx.folder_provider
          (convert_icon_set_to_sys ((ctx.customizer.apply_profile profile).render_all))
          path) folders 0
    · have h1 : ((folders.enum.filter (fun p => set_ok ctx.folder_provider
          (convert_icon_set_to_sys ((ctx.customizer.apply_profile profile).render_all))
          p.2)).length)
          = ((folders.filter (fun path => set_ok ctx.folder_provider
            (convert_icon_set_to_sys ((ctx.customizer.apply_profile profile).render_all))
            path)).length) := enumFrom_filter_snd_length _ folders 0
      have h2 : ((folders.enum.filter (fun p => !set_ok ctx.folder_provider
          (convert_icon_set_to_sys ((ctx.customizer.apply_profile profile).render_all))
          p.2)).length)
          = ((folders.filter (fun path => !set_ok ctx.folder_provider
            (convert_icon_set_to_sys ((ctx.customizer.apply_profile profile).render_all))
            path)).length) := enumFrom_filter_snd_length
        (fun path => !set_ok ctx.folder_provider
          (convert_icon_set_to_sys ((ctx.customizer.apply_profile profile).render_all))
          path) folders 0
      have h3 := length_filter_add_length_filter_not (fun path => set_ok ctx.folder_provider
        (convert_icon_set_to_sys ((ctx.customizer.apply_profile profile).render_all))
        path) folders
      omega
  · refine ⟨(folders.enum.filter (fun p => reset_ok ctx.folder_provider p.2)).length,
      (folders.enum.filter (fun p => !reset_ok ctx.folder_provider p.2)).length,
      ?_, ?_, ?_, ?_⟩
    · simp only [CustomizationContext.reset_folders_async, reset_async_loop_spec,
        Nat.zero_add]
      exact List.getLast?_concat _
    · exact enumFrom_filter_snd_length _ folders 0
    · exact enumFrom_filter_snd_length
        (fun path => !reset_ok ctx.folder_provider path) folders 0
    · have h1 : ((folders.enum.filter (fun p => reset_ok ctx.folder_provider p.2)).length)
          = ((folders.filter (fun path => reset_ok ctx.folder_provider path)).length) :=
        enumFrom_filter_snd_length _ folders 0
      have h2 : ((folders.enum.filter (fun p => !reset_ok ctx.folder_provider p.2)).length)
          = ((folders.filter (fun path => !reset_ok ctx.folder_provider path)).length) :=
        enumFrom_filter_snd_length (fun path => !reset_ok ctx.folder_provider path) folders 0
      have h3 := length_filter_add_length_filter_not
        (fun path => reset_ok ctx.folder_provider path) folders
      omega

/-! ## Filesystem lemmas -/

/-- Looking up the path just written finds the written data. -/
theorem lookup_writeFile_self (w : World) (p : String) (d : FileData) :
    lookupFile (writeFile w p d) p = some d := by
  simp [lookupFile, writeFile, List.find?]

/-- Looking up a different path is unaffected by a write. -/
theorem lookup_writeFile_ne (w : World) (p : String) (d : FileData) (q : String)
    (h : q ≠ p) : lookupFile (writeFile w p d) q = lookupFile w q := by
  simp only [lookupFile, writeFile, List.find?]
  have : ¬(p = q) := fun hpq => h hpq.symm
  simp [this]

/-- `ensure_cache_dir` never touches the files on disk. -/
theorem ensure_cache_dir_files (w : World) : (ensure_cache_dir w).1.files = w.files := by
  unfold ensure_cache_dir
  cases w.dir_exists <;> cases w.create_dir_err <;> simp

/-- The manifest path is never one of the image paths: the file names
`manifest.json` and `folder_icon_{size}_{index}.png` differ. -/
theorem manifest_path_ne_icon_path (cd : String) (size index : Nat) :
    manifest_path cd ≠ icon_path cd size index := by
  intro h
  have hd := congrArg String.data h
  simp only [manifest_path, icon_path, String.data_append, List.append_assoc] at hd
  have hd2 := List.append_cancel_left hd
  have hd3 := List.append_cancel_left hd2
  simp only [List.cons_append, List.cons.injEq] at hd3
  exact absurd hd3.1 (by decide)

/-- The manifest file lies inside the cache directory. -/
theorem path_in_dir_manifest (cd : String) :
    path_in_dir cd (manifest_path cd) = true := by
  simp only [path_in_dir, manifest_path, decide_eq_true_eq]
  have hsplit : (cd ++ "/" ++ "manifest.json").data
      = (cd ++ "/").data ++ ("manifest.json" : String).data := by
    simp [String.data_append]
  rw [hsplit, List.take_left]

/-- After `remove_dir_all`, no path inside the cache directory can be found. -/
theorem find_after_clear_none (files : List (String × FileData)) (cd q : String)
    (hq : path_in_dir cd q = true) :
    (files.filter (fun kv => !path_in_dir cd kv.1)).find? (fun kv => kv.1 = q) = none := by
  rw [List.find?_eq_none]
  intro kv hkv hq2
  have h1 := List.of_mem_filter hkv
  have h2 : kv.1 = q := of_decide_eq_true hq2
  rw [h2, hq] at h1
  exact absurd h1 (by decide)

/-- C7: `is_cached()` is false whenever `force_refresh` is set and otherwise
holds exactly when the manifest file exists; and on any filesystem state in
which a file inside the cache directory implies the directory exists, a
successful `clear()` (which is a no-op when the directory is already
absent) leaves `is_cached()` false. -/
theorem is_cached_clear_spec (cfg : CacheConfig) (w : World)
    (hcons : pathExists w (manifest_path cfg.cache_dir) = true → w.dir_exists = true) :
    is_cached cfg w = (!cfg.force_refresh && pathExists w (manifest_path cfg.cache_dir))
    ∧ ∀ w' u, cache_clear cfg w = (w', Except.ok u) → is_cached cfg w' = false := by
  constructor
  · unfold is_cached
    cases cfg.force_refresh <;> simp
  · intro w' u hclear
    by_cases hdir : w.dir_exists = true
    · cases hrm : w.remove_dir_err with
      | some e =>
        rw [cache_clear, if_pos hdir, hrm] at hclear
        exact absurd (congrArg Prod.snd hclear) (by simp)
      | none =>
        rw [cache_clear, if_pos hdir, hrm] at hclear
        have hw' := congrArg Prod.fst hclear
        simp only at hw'
        rw [← hw']
        unfold is_cached
        cases hfr : cfg.force_refresh with
        | true => rfl
        | false =>
          simp [pathExists, lookupFile,
            find_after_clear_none w.files cfg.cache_dir (manifest_path cfg.cache_dir)
              (path_in_dir_manifest cfg.cache_dir)]
    · have hdir2 : w.dir_exists = false := by revert hdir; cases w.dir_exists <;> simp
      rw [cache_clear, if_neg (by rw [hdir2]; simp)] at hclear
      have hw' := congrArg Prod.fst hclear
      simp only at hw'
      rw [← hw']
      unfold is_cached
      cases hfr : cfg.force_refresh with
      | true => rfl
      | false =>
        cases hex : pathExists w (manifest_path cfg.cache_dir) with
        | false => simp [hex]
        | true => exact absurd (hcons hex) hdir

/-- C7 witness: on a concrete populated, consistent cache state the
`is_cached` equation holds and `clear()` leaves `is_cached()` false. -/
theorem is_cached_clear_spec_witness :
    (is_cached { cache_dir := "c", force_refresh := false }
        { dir_exists := true,
          files := [(manifest_path "c", FileData.manifestJson (Except.error "x"))],
          create_dir_err := none, remove_dir_err := none,
          provider_result := Except.error "no provider",
          save_err := fun _ => none, ser_err := none, write_err := none }
      = (!false && pathExists
          { dir_exists := true,
            files := [(manifest_path "c", FileData.manifestJson (Except.error "x"))],
            create_dir_err := none, remove_dir_err := none,
            provider_result := Except.error "no provider",
            save_err := fun _ => none, ser_err := none, write_err := none }
          (manifest_path "c")))
    ∧ ∀ w' u, cache_clear { cache_dir := "c", force_refresh := false }
        { dir_exists := true,
          files := [(manifest_path "c", FileData.manifestJson (Except.error "x"))],
          create_dir_err := none, remove_dir_err := none,
          provider_result := Except.error "no provider",
          save_err := fun _ => none, ser_err := none, write_err := none }
        = (w', Except.ok u) →
      is_cached { cache_dir := "c", force_refresh := false } w' = false :=
  is_cached_clear_spec { cache_dir := "c", force_refresh := false }
    { dir_exists := true,
      files := [(manifest_path "c", FileData.manifestJson (Except.error "x"))],
      create_dir_err := none, remove_dir_err := none,
      provider_result := Except.error "no provider",
      save_err := fun _ => none, ser_err := none, write_err := none }
    (fun _ => rfl)

/-- Two worlds with the same files agree on every lookup. -/
theorem lookup_congr_files (w1 w2 : World) (p : String) (h : w1.files = w2.files) :
    lookupFile w1 p = lookupFile w2 p := by
  simp [lookupFile, h]

/-- The image-saving loop never writes to the manifest path. -/
theorem cache_images_loop_manifest (cd : String) :
    ∀ (l : List (Nat × SysIconImage)) (w : World),
    lookupFile (cache_images_loop cd w l).1 (manifest_path cd)
      = lookupFile w (manifest_path cd) := by
  intro l
  induction l with
  | nil => intro w; rfl
  | cons p rest ih =>
    intro w
    obtain ⟨index, image⟩ := p
    simp only [cache_images_loop]
    cases hs : w.save_err (icon_path cd image.data.to_rgba8.width index) with
    | some e => rfl
    | none =>
      simp only
      have hmid := ih (writeFile w (icon_path cd image.data.to_rgba8.width index)
        (FileData.pngFile (Except.ok (DynamicImage.imageRgba8 image.data.to_rgba8))))
      have hw : lookupFile (writeFile w (icon_path cd image.data.to_rgba8.width index)
          (FileData.pngFile (Except.ok (DynamicImage.imageRgba8 image.data.to_rgba8))))
          (manifest_path cd) = lookupFile w (manifest_path cd) :=
        lookup_writeFile_ne w _ _ _ (manifest_path_ne_icon_path cd _ index)
      cases hrec : cache_images_loop cd (writeFile w
          (icon_path cd image.data.to_rgba8.width index)
          (FileData.pngFile (Except.ok (DynamicImage.imageRgba8 image.data.to_rgba8)))) rest with
      | mk w2 r2 =>
        rw [hrec] at hmid
        cases r2 <;> simp only <;> rw [hmid, hw]

/-- A successful image-saving loop produces exactly one manifest entry per
image, in enumeration order, whose `index` field is the enumeration index
and whose path is the deterministic `(size, index)` path. -/
theorem cache_images_loop_ok_infos (cd : String) :
    ∀ (l : List (Nat × SysIconImage)) (w w' : World) (infos : List CachedIconInfo),
    cache_images_loop cd w l = (w', Except.ok infos) →
    infos = l.map (fun p =>
      { size := p.2.data.to_rgba8.width, index := p.1,
        path := icon_path cd p.2.data.to_rgba8.width p.1 }) := by
  intro l
  induction l with
  | nil =>
    intro w w' infos h
    have h2 := congrArg Prod.snd h
    simp only [cache_images_loop] at h2
    simpa using h2.symm
  | cons p rest ih =>
    intro w w' infos h
    obtain ⟨index, image⟩ := p
    simp only [cache_images_loop] at h
    cases hs : w.save_err (icon_path cd image.data.to_rgba8.width index) with
    | some e =>
      rw [hs] at h
      have h2 := congrArg Prod.snd h
      simp at h2
    | none =>
      rw [hs] at h
      cases hrec : cache_images_loop cd (writeFile w
          (icon_path cd image.data.to_rgba8.width index)
          (FileData.pngFile (Except.ok (DynamicImage.imageRgba8 image.data.to_rgba8)))) rest with
      | mk w2 r2 =>
        rw [hrec] at h
        cases r2 with
        | error e2 =>
          have h2 := congrArg Prod.snd h
          simp at h2
        | ok infos2 =>
          have h2 := congrArg Prod.snd h
          simp only [Except.ok.injEq] at h2
          rw [← h2]
          have := ih _ w2 infos2 hrec
          simp [this]

/-- C8: `fetch_and_cache` writes the manifest only after every per-image
write has succeeded: whenever the call returns an error — a failed directory
creation, provider call, image save, serialisation or manifest write — the
manifest file is exactly as it was before the call. -/
theorem fetch_and_cache_no_manifest_on_error (cd : String) (w : World) (e : Error)
    (h : (fetch_and_cache cd w).2 = Except.error e) :
    lookupFile (fetch_and_cache cd w).1 (manifest_path cd)
      = lookupFile w (manifest_path cd) := by
  cases h1 : ensure_cache_dir w with
  | mk w1 r1 =>
    have hw1 : w1 = (ensure_cache_dir w).1 := by rw [h1]
    have hc1 : lookupFile w1 (manifest_path cd) = lookupFile w (manifest_path cd) :=
      lookup_congr_files w1 w _ (by rw [hw1]; exact ensure_cache_dir_files w)
    cases r1 with
    | error e1 => simp only [fetch_and_cache, h1]; exact hc1
    | ok u =>
      cases hp : w1.provider_result with
      | error ep => simp only [fetch_and_cache, h1, hp]; exact hc1
      | ok icon_set =>
        cases hloop : cache_images_loop cd w1 icon_set.images.enum with
        | mk w2 r2 =>
          have hc2 : lookupFile w2 (manifest_path cd) = lookupFile w1 (manifest_path cd) := by
            have := cache_images_loop_manifest cd icon_set.images.enum w1
            rw [hloop] at this
            exact this
          cases r2 with
          | error e2 =>
            simp only [fetch_and_cache, h1, hp, hloop]
            rw [hc2, hc1]
          | ok infos =>
            cases hser : w2.ser_err with
            | some es =>
              simp only [fetch_and_cache, h1, hp, hloop, hser]
              rw [hc2, hc1]
            | none =>
              cases hwr : w2.write_err with
              | some ew =>
                simp only [fetch_and_cache, h1, hp, hloop, hser, hwr]
                rw [hc2, hc1]
              | none =>
                exfalso
                have h2 : (fetch_and_cache cd w).2 = Except.ok icon_set := by
                  simp only [fetch_and_cache, h1, hp, hloop, hser, hwr]
                rw [h2] at h
                exact Except.noConfusion h

/-- C8 witness: on a concrete world whose image save fails, the call errors
and the (absent) manifest file stays absent. -/
theorem fetch_and_cache_no_manifest_on_error_witness :
    lookupFile (fetch_and_cache "c"
      { dir_exists := true, files := [],
        create_dir_err := none, remove_dir_err := none,
        provider_result := Except.ok { images := [{ data := (DynamicImage.imageRgba8
          { width := 16, height := 16, pixels := [5] }) }] },
        save_err := fun _ => some "disk full", ser_err := none, write_err := none }).1
      (manifest_path "c")
    = lookupFile
      { dir_exists := true, files := [],
        create_dir_err := none, remove_dir_err := none,
        provider_result := Except.ok { images := [{ data := (DynamicImage.imageRgba8
          { width := 16, height := 16, pixels := [5] }) }] },
        save_err := fun _ => some "disk full", ser_err := none, write_err := none }
      (manifest_path "c") :=
  fetch_and_cache_no_manifest_on_error "c" _ (Error.imageErr "disk full") rfl

/-- C9: every manifest written by a successful `fetch_and_cache` satisfies
the manifest invariant: `icon_count` equals the length of `icons`, with
exactly one entry per image of the fetched set, in set order, each entry's
`index` equal to its position in the list. -/
theorem fetch_and_cache_manifest_invariant (cd : String) (w w' : World) (s : SysIconSet)
    (h : fetch_and_cache cd w = (w', Except.ok s)) :
    ∃ m : CacheManifest,
      lookupFile w' (manifest_path cd) = some (FileData.manifestJson (Except.ok m))
      ∧ m.version = 1
      ∧ m.icon_count = m.icons.length
      ∧ m.icons.length = s.images.length
      ∧ m.icons = s.images.enum.map (fun p =>
          { size := p.2.data.to_rgba8.width, index := p.1,
            path := icon_path cd p.2.data.to_rgba8.width p.1 })
      ∧ ∀ (k : Nat) (info : CachedIconInfo),
          m.icons.get? k = some info → info.index = k := by
  cases h1 : ensure_cache_dir w with
  | mk w1 r1 =>
    cases r1 with
    | error e1 =>
      rw [fetch_and_cache, h1] at h
      exact absurd (congrArg Prod.snd h) (by simp)
    | ok u =>
      cases hp : w1.provider_result with
      | error ep =>
        rw [fetch_and_cache, h1] at h
        simp only [hp] at h
        exact absurd (congrArg Prod.snd h) (by simp)
      | ok icon_set =>
        cases hloop : cache_images_loop cd w1 icon_set.images.enum with
        | mk w2 r2 =>
          cases r2 with
          | error e2 =>
            rw [fetch_and_cache, h1] at h
            simp only [hp, hloop] at h
            exact absurd (congrArg Prod.snd h) (by simp)
          | ok infos =>
            cases hser : w2.ser_err with
            | some es =>
              rw [fetch_and_cache, h1] at h
              simp only [hp, hloop, hser] at h
              exact absurd (congrArg Prod.snd h) (by simp)
            | none =>
              cases hwr : w2.write_err with
              | some ew =>
                rw [fetch_and_cache, h1] at h
                simp only [hp, hloop, hser, hwr] at h
                exact absurd (congrArg Prod.snd h) (by simp)
              | none =>
                rw [fetch_and_cache, h1] at h
                simp only [hp, hloop, hser, hwr, Prod.mk.injEq, Except.ok.injEq] at h
                obtain ⟨hw', hs⟩ := h
                have hinfos := cache_images_loop_ok_infos cd icon_set.images.enum w1 w2
                  infos hloop
                refine ⟨{ version := 1, icon_count := icon_set.images.length, icons := infos },
                  ?_, rfl, ?_, ?_, ?_, ?_⟩
                · rw [← hw']
                  exact lookup_writeFile_self w2 (manifest_path cd) _
                · simp only [hinfos, List.length_map, List.enum_length]
                · simp only [hinfos, List.length_map, List.enum_length]
                  rw [hs]
                · rw [hinfos, hs]
                · intro k info hk
                  rw [hinfos] at hk
                  rw [List.get?_map, List.get?_enum] at hk
                  cases hli : icon_set.images.get? k with
                  | none => rw [hli] at hk; simp at hk
                  | some img =>
                    rw [hli] at hk
                    simp only [Option.map_some', Option.some.injEq] at hk
                    rw [← hk]

/-- C9 witness: populating a fresh cache from a provider with one 16-by-16
image yields a manifest satisfying the invariant. -/
theorem fetch_and_cache_manifest_invariant_witness :
    ∃ m : CacheManifest,
      lookupFile (fetch_and_cache "c"
        { dir_exists := true, files := [],
          create_dir_err := none, remove_dir_err := none,
          provider_result := Except.ok { images := [{ data := (DynamicImage.imageRgba8
            { width := 16, height := 16, pixels := [5] }) }] },
          save_err := fun _ => none, ser_err := none, write_err := none }).1
        (manifest_path "c")
        = some (FileData.manifestJson (Except.ok m))
      ∧ m.version = 1
      ∧ m.icon_count = m.icons.length
      ∧ m.icons.length = ({ images := [{ data := (DynamicImage.imageRgba8
          { width := 16, height := 16, pixels := [5] }) }] } : SysIconSet).images.length
      ∧ m.icons = ({ images := [{ data := (DynamicImage.imageRgba8
          { width := 16, height := 16, pixels := [5] }) }] } : SysIconSet).images.enum.map
          (fun p =>
            { size := p.2.data.to_rgba8.width, index := p.1,
              path := icon_path "c" p.2.data.to_rgba8.width p.1 })
      ∧ ∀ (k : Nat) (info : CachedIconInfo),
          m.icons.get? k = some info → info.index = k :=
  fetch_and_cache_manifest_invariant "c"
    { dir_exists := true, files := [],
      create_dir_err := none, remove_dir_err := none,
      provider_result := Except.ok { images := [{ data := (DynamicImage.imageRgba8
        { width := 16, height := 16, pixels := [5] }) }] },
      save_err := fun _ => none, ser_err := none, write_err := none }
    (fetch_and_cache "c"
      { dir_exists := true, files := [],
        create_dir_err := none, remove_dir_err := none,
        provider_result := Except.ok { images := [{ data := (DynamicImage.imageRgba8
          { width := 16, height := 16, pixels := [5] }) }] },
        save_err := fun _ => none, ser_err := none, write_err := none }).1
    { images := [{ data := (DynamicImage.imageRgba8
      { width := 16, height := 16, pixels := [5] }) }] }
    rfl

/-- If some listed file is missing and every listed file before the first
missing one decodes, the load loop reaches the first missing file without
modifying the world and falls back to exactly one `fetch_and_cache` on the
unchanged world. -/
theorem load_images_loop_refetch (cd : String) (w : World) :
    ∀ (infos : List CachedIconInfo) (acc : List SysIconImage),
    (∃ info ∈ infos, pathExists w info.path = false) →
    (∀ info ∈ infos.takeWhile (fun i => pathExists w i.path),
        ∃ img, openImage w info.path = Except.ok img) →
    load_images_loop cd w infos acc = fetch_and_cache cd w := by
  intro infos
  induction infos with
  | nil =>
    intro acc hmiss _
    obtain ⟨info, hmem, _⟩ := hmiss
    exact absurd hmem (List.not_mem_nil info)
  | cons info rest ih =>
    intro acc hmiss hdec
    cases hex : pathExists w info.path with
    | false => simp [load_images_loop, hex]
    | true =>
      obtain ⟨img, himg⟩ := hdec info (by
        rw [List.takeWhile_cons, if_pos hex]
        exact List.mem_cons_self info _)
      have hrest_miss : ∃ i ∈ rest, pathExists w i.path = false := by
        obtain ⟨i, hi, hbad⟩ := hmiss
        rcases List.mem_cons.mp hi with h0 | h0
        · rw [h0] at hbad; rw [hbad] at hex; exact absurd hex (by decide)
        · exact ⟨i, h0, hbad⟩
      have hrest_dec : ∀ i ∈ rest.takeWhile (fun i => pathExists w i.path),
          ∃ img, openImage w i.path = Except.ok img := by
        intro i hi
        exact hdec i (by
          rw [List.takeWhile_cons, if_pos hex]
          exact List.mem_cons_of_mem info hi)
      simp only [load_images_loop, hex, himg]
      simp only [Bool.not_true]
      exact ih (acc ++ [{ data := img }]) hrest_miss hrest_dec

/-- C2 (amended): for every cache whose manifest file exists and parses,
which references at least one image file that no longer exists on disk, and
in which every referenced file listed before the first missing one decodes
successfully, `get_sys_icon_set` does not fail due to the stale manifest: it
behaves exactly as one full `fetch_and_populate` on the unchanged state —
it falls back to exactly one repopulation, returns the freshly populated
set, and fails only if that single repopulation itself fails.  (Without the
decode proviso the fallback is not reached: a decode failure on an earlier
existing file propagates instead.) -/
theorem get_sys_icon_set_self_healing (cfg : CacheConfig) (w : World) (m : CacheManifest)
    (hfr : cfg.force_refresh = false)
    (hman : lookupFile w (manifest_path cfg.cache_dir)
      = some (FileData.manifestJson (Except.ok m)))
    (hmiss : ∃ info ∈ m.icons, pathExists w info.path = false)
    (hdec : ∀ info ∈ m.icons.takeWhile (fun i => pathExists w i.path),
        ∃ img, openImage w info.path = Except.ok img) :
    get_sys_icon_set cfg w = fetch_and_cache cfg.cache_dir w := by
  have hcached : is_cached cfg w = true := by
    unfold is_cached
    rw [hfr]
    simp [pathExists, hman]
  rw [get_sys_icon_set, if_pos hcached, load_from_cache, hman]
  exact load_images_loop_refetch cfg.cache_dir w m.icons [] hmiss hdec

/-- C2 witness: a concrete cache whose manifest lists one now-missing image
file; `get()` on it is exactly one fresh repopulation. -/
theorem get_sys_icon_set_self_healing_witness :
    get_sys_icon_set { cache_dir := "c", force_refresh := false }
      { dir_exists := true,
        files := [(manifest_path "c", FileData.manifestJson (Except.ok
          { version := 1, icon_count := 1,
            icons := [{ size := 16, index := 0, path := icon_path "c" 16 0 }] }))],
        create_dir_err := none, remove_dir_err := none,
        provider_result := Except.ok { images := [{ data := (DynamicImage.imageRgba8
          { width := 16, height := 16, pixels := [9] }) }] },
        save_err := fun _ => none, ser_err := none, write_err := none }
    = fetch_and_cache "c"
      { dir_exists := true,
        files := [(manifest_path "c", FileData.manifestJson (Except.ok
          { version := 1, icon_count := 1,
            icons := [{ size := 16, index := 0, path := icon_path "c" 16 0 }] }))],
        create_dir_err := none, remove_dir_err := none,
        provider_result := Except.ok { images := [{ data := (DynamicImage.imageRgba8
          { width := 16, height := 16, pixels := [9] }) }] },
        save_err := fun _ => none, ser_err := none, write_err := none } :=
  get_sys_icon_set_self_healing { cache_dir := "c", force_refresh := false } _
    { version := 1, icon_count := 1,
      icons := [{ size := 16, index := 0, path := icon_path "c" 16 0 }] }
    rfl (by decide) (by decide)
    (by
      intro info h
      rw [show (([{ size := 16, index := 0, path := icon_path "c" 16 0 }] :
          List CachedIconInfo).takeWhile _) = [] from by decide] at h
      exact absurd h (List.not_mem_nil info))

/-- The manifest of the C2 counterexample state: it lists `a.png` (which
will be present but corrupt) before `b.png` (which will be missing). -/
def staleManifest : CacheManifest :=
  { version := 1, icon_count := 2,
    icons := [{ size := 16, index := 0, path := "a.png" },
              { size := 16, index := 1, path := "b.png" }] }

/-- The icon set the external provider would deliver in the C2
counterexample state. -/
def staleProviderSet : SysIconSet :=
  { images := [{ data := (DynamicImage.imageRgba8
      { width := 16, height := 16, pixels := [9] }) }] }

/-- The C2 counterexample filesystem state: a parsed manifest listing a
present-but-corrupt `a.png` before a missing `b.png`, with a healthy
provider and no I/O faults, so a repopulation would succeed. -/
def staleWorld : World :=
  { dir_exists := true,
    files := [(manifest_path "c", FileData.manifestJson (Except.ok staleManifest)),
              ("a.png", FileData.pngFile (Except.error "bad png"))],
    create_dir_err := none, remove_dir_err := none,
    provider_result := Except.ok staleProviderSet,
    save_err := fun _ => none, ser_err := none, write_err := none }

/-- C2 counterexample: the claim as stated promises the fallback for every
cache whose parsed manifest references a missing file; but when an earlier
listed file still exists and fails to decode, `get()` propagates that decode
error without repopulating, even though the single repopulation would have
succeeded.  Concretely on `staleWorld`: the manifest references the missing
`b.png`, yet `get()` returns the decode error for `a.png` while
`fetch_and_cache` on the same state returns the fresh set. -/
theorem get_sys_icon_set_stale_cex :
    (∃ info ∈ staleManifest.icons, pathExists staleWorld info.path = false)
    ∧ (get_sys_icon_set { cache_dir := "c", force_refresh := false } staleWorld).2
        = Except.error (Error.imageErr "bad png")
    ∧ (fetch_and_cache "c" staleWorld).2 = Except.ok staleProviderSet := by
  refine ⟨⟨{ size := 16, index := 1, path := "b.png" }, by decide, by decide⟩, rfl, rfl⟩
